import Mathlib

/-!
Verification development for the Flyway MCP server (`src/server.js`, current
revision, lines 490-1099).  The server's locally implemented logic is embedded
shallowly: JS values that flow through the handlers are modelled by an
inductive `Json` type, JS truthiness is modelled explicitly, the module-level
mutable state (`activeProjectPath`, `activeProjectConfig`, `activeFlyway`) and
the filesystem effects are threaded through a `ServerState`, and each tool
handler becomes a pure function from state and arguments to a result paired
with the successor state (errors also carry the successor state, because the
source mutates before some throws).
-/

set_option maxHeartbeats 1000000

namespace FlywayMCP

/-- JS values as they appear in this server: JSON documents read from
`.flyway-mcp.json`, tool-call argument objects, and the in-memory
`activeProjectConfig`.  Object fields keep insertion order, matching JS
property-enumeration order. -/
inductive Json where
  | null
  | bool (b : Bool)
  | num (n : Int)
  | str (s : String)
  | arr (elems : List Json)
  | obj (fields : List (String × Json))
  deriving Repr

/-- JS truthiness of a value (`if (v)`): `null`, `false`, `0` and `""` are
falsy, everything else (including `{}` and `[]`) is truthy. -/
def jsTruthy : Json → Bool
  | .null => false
  | .bool b => b
  | .num n => n != 0
  | .str s => s != ""
  | .arr _ => true
  | .obj _ => true

/-- Lookup in an association list by key (first match wins), modelling JS
property access on the own enumerable properties. -/
def lookupA {α : Type} : List (String × α) → String → Option α
  | [], _ => none
  | (k0, v0) :: rest, k => if k0 = k then some v0 else lookupA rest k

/-- Set a key in an association list, replacing in place when the key is
already present and appending otherwise.  This is the order produced by a JS
spread-then-assign object literal. -/
def setA {α : Type} : List (String × α) → String → α → List (String × α)
  | [], k, v => [(k, v)]
  | (k0, v0) :: rest, k, v =>
    if k0 = k then (k0, v) :: rest else (k0, v0) :: setA rest k v

/-- Own enumerable properties of a JS value, as `Object.entries` /
`Object.keys` / spread enumerate them.  Objects yield their fields, arrays
and strings yield index-keyed entries, and primitives yield nothing. -/
def jfields : Json → List (String × Json)
  | .obj f => f
  | .arr xs => xs.enum.map (fun p => (toString p.1, p.2))
  | .str s => s.data.enum.map (fun p => (toString p.1, Json.str (String.mk [p.2])))
  | _ => []

/-- JS property read `v[k]` restricted to own enumerable properties.  This is
exact for the *fixed-key* accesses the server performs (`migrations_path`,
`migration_categories`, `database_url`, the schema field names): none of
those keys exists on `Object.prototype`, so the own lookup coincides with the
full prototype-chain read.  The one access with a caller-chosen key
(`migration_categories[category]`, line 598) goes through `jread` instead. -/
def jget (v : Json) (k : String) : Option Json :=
  lookupA (jfields v) k

/-- `Object.keys(v)`. -/
def jkeys (v : Json) : List String :=
  (jfields v).map Prod.fst

/-- The own property names of `Object.prototype` in Node — the keys every
plain JSON document (from `JSON.parse` or a zod record parse) inherits.
Reading any of them yields a function (or, for `__proto__`, the
`Object.prototype` object itself): always truthy and never a string. -/
def objectProtoKeys : List String :=
  ["constructor", "hasOwnProperty", "isPrototypeOf", "propertyIsEnumerable",
   "toLocaleString", "toString", "valueOf", "__proto__",
   "__defineGetter__", "__defineSetter__", "__lookupGetter__", "__lookupSetter__"]

/-- Result of a JS property read `v[k]` with an arbitrary, caller-chosen
key: an own property's JSON value, an inherited `Object.prototype` member
(truthy and not a string), or `undefined`. -/
inductive JsProp where
  | own (j : Json)
  | inherited
  | missing
  deriving Repr

/-- JS property read `v[k]` for arbitrary keys: own enumerable properties
first, then the `Object.prototype` members every plain JSON document
inherits.  (A `__proto__` key present in a `JSON.parse`d document is an own
data property and shadows the accessor, which the own-first order models.)
Members specific to other prototypes, such as `String.prototype`, are not
modelled: no claim reads an arbitrary key of a non-object document. -/
def jread (v : Json) (k : String) : JsProp :=
  match lookupA (jfields v) k with
  | some j => .own j
  | none => if k ∈ objectProtoKeys then .inherited else .missing

/-- Truthiness of an optional string slot (`undefined` and `""` are falsy),
used for `validatedArgs.migrations_path`, `validatedArgs.category`, and
`activeProjectPath`. -/
def truthyOptStr : Option String → Bool
  | none => false
  | some s => s != ""

/-- `path.isAbsolute` on POSIX: the path starts with a slash. -/
def isAbsolute (s : String) : Bool :=
  match s.data with
  | '/' :: _ => true
  | _ => false

/-- Normalization of leading `./` segments, the only part of Node's
`path.normalize` the server's joins exercise (every relative config path is
conventionally written `./...`). -/
def dropDotSlash : List Char → List Char
  | '.' :: '/' :: rest => dropDotSlash rest
  | l => l

/-- `path.join(a, b)` for the argument shapes the server produces: the second
segment never starts with a slash (every absolute path is routed around the
join by an `isAbsolute` check) and never contains `..` or interior `.`
segments, so stripping leading `./` from the second segment and inserting a
separator is faithful to Node's join-then-normalize. -/
def pathJoin (a b0 : String) : String :=
  let b := String.mk (dropDotSlash b0.data)
  if a = "" then (if b = "" then "." else b)
  else if b = "" then a
  else if a.data.getLast? = some '/' then a ++ b
  else a ++ "/" ++ b

/-! ## Description sanitization (`create_migration`, lines 1062-1066) -/

/-- Characters kept verbatim by the sanitizer: the class `[a-z0-9]` of the
regex `/[^a-z0-9]+/g`. -/
def isAlnumLower (c : Char) : Bool :=
  decide (('a' ≤ c ∧ c ≤ 'z') ∨ ('0' ≤ c ∧ c ≤ '9'))

/-- One pass of `.replace(/[^a-z0-9]+/g, '_')`: every maximal run of
characters outside `[a-z0-9]` becomes a single underscore.  The flag records
whether the previous character belonged to such a run. -/
def collapseAux : Bool → List Char → List Char
  | _, [] => []
  | prevBad, c :: cs =>
    if isAlnumLower c then c :: collapseAux false cs
    else if prevBad then collapseAux true cs
    else '_' :: collapseAux true cs

/-- `.replace(/^_+|_+$/g, '')`: strip the leading and the trailing run of
underscores. -/
def stripUnderscores (l : List Char) : List Char :=
  ((l.dropWhile (· == '_')).reverse.dropWhile (· == '_')).reverse

/-- `cleanDescription` (line 1063): lowercase, collapse non-`[a-z0-9]` runs to
one underscore, strip leading/trailing underscores.  Lowercasing is modelled
ASCII-only (`Char.toLower`); a non-ASCII character is outside `[a-z0-9]` both
before and after JS lowercasing, so it is collapsed either way. -/
def cleanDescription (d : String) : String :=
  String.mk (stripUnderscores (collapseAux false (d.data.map Char.toLower)))

/-! ## Timestamps (`create_migration`, lines 1056-1060) -/

/-- A broken-down UTC instant as `new Date()` exposes it through
`toISOString`. -/
structure DateTime where
  year : Nat
  month : Nat
  day : Nat
  hour : Nat
  minute : Nat
  second : Nat
  ms : Nat
  deriving Repr, DecidableEq

/-- The decimal digit character of `n % 10`. -/
def dchar (n : Nat) : Char :=
  Nat.digitChar (n % 10)

/-- Two-digit zero-padded decimal, as ISO-8601 renders month/day/hour/minute/
second. -/
def pad2 (n : Nat) : List Char :=
  [dchar (n / 10), dchar n]

/-- Three-digit zero-padded decimal, as ISO-8601 renders milliseconds. -/
def pad3 (n : Nat) : List Char :=
  [dchar (n / 100), dchar (n / 10), dchar n]

/-- Four-digit zero-padded decimal, as ISO-8601 renders the year (for years
0000-9999, the only range `toISOString` renders without the expanded-year
sign prefix). -/
def pad4 (n : Nat) : List Char :=
  [dchar (n / 1000), dchar (n / 100), dchar (n / 10), dchar n]

/-- The characters of `Date.prototype.toISOString()`:
`YYYY-MM-DDTHH:mm:ss.sssZ`. -/
def isoChars (t : DateTime) : List Char :=
  pad4 t.year ++ '-' :: pad2 t.month ++ '-' :: pad2 t.day ++
    'T' :: pad2 t.hour ++ ':' :: pad2 t.minute ++ ':' :: pad2 t.second ++
    '.' :: pad3 t.ms ++ ['Z']

/-- `new Date().toISOString()`. -/
def isoString (t : DateTime) : String :=
  String.mk (isoChars t)

/-- The character class survived by `.replace(/[-:T]/g, '')`. -/
def keepChar (c : Char) : Bool :=
  !(c == '-' || c == ':' || c == 'T')

/-- `.replace(/\.\d+Z$/, '')`: remove a trailing period-digits-`Z` suffix when
present (the regex is anchored at the end, so the global flag is inert). -/
def dropTrailingFracZ (l : List Char) : List Char :=
  match l.reverse with
  | 'Z' :: rest =>
    let ds := rest.takeWhile (fun c => c.isDigit)
    if ds.isEmpty then l
    else
      match rest.drop ds.length with
      | '.' :: rest2 => rest2.reverse
      | _ => l
  | _ => l

/-- The timestamp generator (line 1057):
`new Date().toISOString().replace(/[-:T]/g, '').replace(/\.\d+Z$/, '').slice(0, 14)`. -/
def timestamp (t : DateTime) : String :=
  String.mk (List.take 14 (dropTrailingFracZ ((isoChars t).filter keepChar)))

/-- The value of a digit string read as an unsigned decimal integer (how the
spec compares two timestamps). -/
def digitsToNat (l : List Char) : Nat :=
  l.foldl (fun n c => n * 10 + (c.toNat - 48)) 0

/-- A timestamp compared as an unsigned decimal integer. -/
def tsNat (t : DateTime) : Nat :=
  digitsToNat (timestamp t).data

/-- The instants `new Date()` renders in plain (non-expanded) ISO form:
calendar-valid fields with a four-digit year. -/
def validDT (t : DateTime) : Prop :=
  t.year ≤ 9999 ∧ 1 ≤ t.month ∧ t.month ≤ 12 ∧ 1 ≤ t.day ∧ t.day ≤ 31 ∧
    t.hour ≤ 23 ∧ t.minute ≤ 59 ∧ t.second ≤ 59 ∧ t.ms ≤ 999

instance (t : DateTime) : Decidable (validDT t) := by
  unfold validDT; infer_instance

/-- Chronological order of two instants at seconds resolution: lexicographic
on the broken-down UTC fields. -/
def dtLT (a b : DateTime) : Prop :=
  a.year < b.year ∨ (a.year = b.year ∧
    (a.month < b.month ∨ (a.month = b.month ∧
      (a.day < b.day ∨ (a.day = b.day ∧
        (a.hour < b.hour ∨ (a.hour = b.hour ∧
          (a.minute < b.minute ∨ (a.minute = b.minute ∧
            a.second < b.second)))))))))

instance (a b : DateTime) : Decidable (dtLT a b) := by
  unfold dtLT; infer_instance

/-! ## Errors and messages -/

/-- Failure modes of a tool invocation.  `invalidArgs` is the wrapped
`ZodError` (`"Invalid arguments: <per-field issues>"`, line 1092);
`cannotSpecifyBoth` is the wrapped `ZodError` produced by the
`InitializeProjectSchema.refine` cross-field check (lines 523-533);
`thrown msg` is a `new Error(msg)` thrown by handler code; and
`typeErrNonStringPath` is the `TypeError` a Node `path` API raises when
handed a non-string (e.g. `path.isAbsolute(undefined)`). -/
inductive Err where
  | invalidArgs
  | cannotSpecifyBoth
  | thrown (msg : String)
  | typeErrNonStringPath
  deriving Repr, DecidableEq

/-- Message of the `refine` on `InitializeProjectSchema` (line 531). -/
def cannotSpecifyBothMsg : String :=
  "Cannot specify both migrations_path (simple mode) and migration_categories (structured mode). Choose one."

/-- Message of `requireInitializedProject` (lines 637-641). -/
def requireInitMsg : String :=
  "No project has been initialized. Please run initialize_project first.\n\nExample: \"Initialize Flyway for the project at /path/to/your/project\"\n\nThis will create a .flyway-mcp.json config file and migrations directory in your project."

/-- Missing-category message of `getMigrationsDirectory` (lines 592-595). -/
def categoryRequiredMsg (keys : List String) : String :=
  "Category is required in structured mode. Available categories: " ++
    String.intercalate ", " keys

/-- Unknown-category message of `getMigrationsDirectory` (lines 600-603). -/
def invalidCategoryMsg (c : String) (keys : List String) : String :=
  "Invalid category \"" ++ c ++ "\". Available categories: " ++
    String.intercalate ", " keys

/-! ## Argument schemas (zod, lines 502-537) -/

/-- Parsed `CreateMigrationSchema` arguments (lines 512-516). -/
structure CreateArgs where
  description : String
  sql : String
  category : Option String
  deriving Repr

/-- `CreateMigrationSchema.parse`: an object with required string fields
`description` and `sql` and an optional string field `category`; unknown keys
are stripped; any shape mismatch is a `ZodError` (`none`). -/
def parseCreateMigration (args : Json) : Option CreateArgs :=
  match args with
  | .obj fields =>
    match lookupA fields "description", lookupA fields "sql" with
    | some (.str d), some (.str s) =>
      match lookupA fields "category" with
      | none => some ⟨d, s, none⟩
      | some (.str c) => some ⟨d, s, some c⟩
      | some _ => none
    | _, _ => none
  | _ => none

/-- Parsed `InitializeProjectSchema` arguments before the `refine` (lines
518-522). -/
structure InitArgs where
  project_path : String
  database_url : String
  migrations_path : Option String
  migration_categories : Option (List (String × String))
  deriving Repr

/-- `z.record(z.string())`: every field value must be a string. -/
def parseRecordString : List (String × Json) → Option (List (String × String))
  | [] => some []
  | (k, .str v) :: rest => (parseRecordString rest).map (fun r => (k, v) :: r)
  | _ => none

/-- An optional `z.string()` field. -/
def optStrField (fields : List (String × Json)) (k : String) : Option (Option String) :=
  match lookupA fields k with
  | none => some none
  | some (.str s) => some (some s)
  | some _ => none

/-- An optional `z.record(z.string())` field. -/
def optRecField (fields : List (String × Json)) (k : String) :
    Option (Option (List (String × String))) :=
  match lookupA fields k with
  | none => some none
  | some (.obj f) => (parseRecordString f).map some
  | some _ => none

/-- The base object shape of `InitializeProjectSchema`. -/
def parseInitBase (args : Json) : Option InitArgs :=
  match args with
  | .obj fields =>
    match lookupA fields "project_path", lookupA fields "database_url" with
    | some (.str pp), some (.str du) =>
      match optStrField fields "migrations_path",
            optRecField fields "migration_categories" with
      | some mp, some mc => some ⟨pp, du, mp, mc⟩
      | _, _ => none
    | _, _ => none
  | _ => none

/-- `InitializeProjectSchema.parse`: base shape first, then the `refine`
(lines 523-533) rejecting a *truthy* `migrations_path` together with a
`migration_categories` value (`hasSimple = !!data.migrations_path`, so an
empty-string `migrations_path` does not count as supplied). -/
def parseInit (args : Json) : Except Err InitArgs :=
  match parseInitBase args with
  | none => .error .invalidArgs
  | some v =>
    if truthyOptStr v.migrations_path && v.migration_categories.isSome then
      .error .cannotSpecifyBoth
    else .ok v

/-- `UpdateMigrationPathSchema.parse` (lines 535-537). -/
def parseUpdatePath (args : Json) : Option String :=
  match args with
  | .obj fields =>
    match lookupA fields "new_migrations_path" with
    | some (.str s) => some s
    | _ => none
  | _ => none

/-! ## Server state -/

/-- The filesystem as the handlers touch it: existing directories, migration
files (path to byte content), and `.flyway-mcp.json` documents keyed by their
path.  A config file that is absent, unreadable, or holds malformed JSON is
simply not in `configs` — `readProjectConfig` returns `null` for all three
(lines 563-571). -/
structure FS where
  dirs : List String
  files : List (String × String)
  configs : List (String × Json)
  deriving Repr

/-- `new Flyway(flywayConfig)` (lines 882-888): the opaque CLI handle keeps
the database URL and the resolved `filesystem:` locations. -/
structure FlywayInst where
  url : Option Json
  locations : List String
  deriving Repr

/-- The module-level mutable state (lines 539-542) plus the filesystem. -/
structure ServerState where
  fs : FS
  activeProjectPath : Option String
  activeProjectConfig : Option Json
  activeFlyway : Option FlywayInst
  deriving Repr

/-- The global Flyway configuration passed to `createServer` (used only by
`getMigrationsDirectory` as a fallback). -/
structure GlobalConfig where
  locations : List String
  deriving Repr

/-- `fs.mkdir(dir, { recursive: true })`: idempotent directory creation. -/
def mkdirFS (fs : FS) (d : String) : FS :=
  if d ∈ fs.dirs then fs else { fs with dirs := d :: fs.dirs }

/-- `fs.writeFile(path, content)`: create or overwrite. -/
def writeFileFS (fs : FS) (p c : String) : FS :=
  { fs with files := setA fs.files p c }

/-! ## Helpers (`server.js` lines 560-643) -/

/-- `requireInitializedProject` (lines 635-643): throws the remediation error
when `!activeProjectPath || !activeProjectConfig` (JS truthiness, so an empty
path string or a falsy config also fails); on success exposes the two
values. -/
def requireInitializedProject (st : ServerState) : Except Err (String × Json) :=
  match st.activeProjectPath, st.activeProjectConfig with
  | some ap, some cfg =>
    if ap == "" then .error (.thrown requireInitMsg)
    else if jsTruthy cfg then .ok (ap, cfg)
    else .error (.thrown requireInitMsg)
  | _, _ => .error (.thrown requireInitMsg)

/-- Fallback of `getMigrationsDirectory` (lines 620-628): first global
location if it is a `filesystem:` one (`.replace('filesystem:','')` removes
the first occurrence, which the `startsWith` guard makes the prefix), else
the conventional `./migrations`. -/
def fallbackDir (gc : GlobalConfig) : Except Err String :=
  match gc.locations with
  | [] => .ok "./migrations"
  | loc :: _ =>
    if loc.data.take 11 = "filesystem:".data then .ok (String.mk (loc.data.drop 11))
    else .ok "./migrations"

/-- Simple-mode arm of `getMigrationsDirectory` (lines 611-617): a truthy
`migrations_path` wins (absolute as-is, otherwise joined under the active
project path); a falsy one falls through to the global fallback; a truthy
non-string reaches `path.isAbsolute` and raises a `TypeError`. -/
def simpleModeDir (st : ServerState) (gc : GlobalConfig) (cfg : Json) :
    Except Err String :=
  match jget cfg "migrations_path" with
  | some mp =>
    if jsTruthy mp then
      match mp with
      | .str s =>
        if isAbsolute s then .ok s
        else
          match st.activeProjectPath with
          | some ap => .ok (pathJoin ap s)
          | none => .error .typeErrNonStringPath
      | _ => .error .typeErrNonStringPath
    else fallbackDir gc
  | none => fallbackDir gc

/-- `getMigrationsDirectory(globalConfig, category)` (lines 587-629). -/
def getMigrationsDirectory (st : ServerState) (gc : GlobalConfig)
    (category : Option String) : Except Err String :=
  match st.activeProjectConfig with
  | some cfg =>
    if jsTruthy cfg then
      match jget cfg "migration_categories" with
      | some mc =>
        if jsTruthy mc then
          if truthyOptStr category then
            let c := category.getD ""
            -- `migration_categories[category]` (line 598) is a read with a
            -- caller-chosen key, so the prototype chain is visible: an
            -- inherited `Object.prototype` member is truthy, escapes the
            -- `if (!categoryPath)` check, and then `path.isAbsolute` throws.
            match jread mc c with
            | .own cp =>
              if jsTruthy cp then
                match cp with
                | .str s =>
                  if isAbsolute s then .ok s
                  else
                    match st.activeProjectPath with
                    | some ap => .ok (pathJoin ap s)
                    | none => .error .typeErrNonStringPath
                | _ => .error .typeErrNonStringPath
              else .error (.thrown (invalidCategoryMsg c (jkeys mc)))
            | .inherited => .error .typeErrNonStringPath
            | .missing => .error (.thrown (invalidCategoryMsg c (jkeys mc)))
          else .error (.thrown (categoryRequiredMsg (jkeys mc)))
        else simpleModeDir st gc cfg
      | none => simpleModeDir st gc cfg
    else fallbackDir gc
  | none => fallbackDir gc

/-! ## `initialize_project` handler (lines 800-901) -/

/-- The directory-creation loop for structured mode (lines 846-860): for each
`Object.entries(migration_categories)` pair, resolve the absolute path
(`path.isAbsolute` on a non-string value throws a `TypeError`), probe with
`fs.access`, and `mkdir` when absent.  The filesystem is returned even on
error, because directories created before a throw persist. -/
def createCategoryDirs (projectPath : String) :
    List (String × Json) → FS → Except Err (List String) × FS
  | [], fs => (.ok [], fs)
  | (category, relativePath) :: rest, fs =>
    match relativePath with
    | .str rp =>
      let absolutePath := if isAbsolute rp then rp else pathJoin projectPath rp
      if absolutePath ∈ fs.dirs then
        match createCategoryDirs projectPath rest fs with
        | (.ok msgs, fs2) =>
          (.ok ((category ++ ": " ++ absolutePath ++ " (already existed)") :: msgs), fs2)
        | (.error e, fs2) => (.error e, fs2)
      else
        let fs1 := { fs with dirs := absolutePath :: fs.dirs }
        match createCategoryDirs projectPath rest fs1 with
        | (.ok msgs, fs2) =>
          (.ok ((category ++ ": " ++ absolutePath ++ " (created)") :: msgs), fs2)
        | (.error e, fs2) => (.error e, fs2)
    | _ => (.error .typeErrNonStringPath, fs)

/-- The `locations` array of the Flyway config (lines 884-886) for structured
mode: `Object.values(migration_categories)` mapped to `filesystem:` paths. -/
def mapLocations (projectPath : String) :
    List (String × Json) → Except Err (List String)
  | [] => .ok []
  | (_, .str p) :: rest =>
    (mapLocations projectPath rest).map
      (fun ls => ("filesystem:" ++ (if isAbsolute p then p else pathJoin projectPath p)) :: ls)
  | _ => .error .typeErrNonStringPath

/-- The success text of `initialize_project` (line 897). -/
def initText (projectPath mode dirsText configPath : String)
    (configExisted isStructuredMode : Bool) : String :=
  "Project initialized successfully!\n\nProject: " ++ projectPath ++
    "\nMode: " ++ mode ++ "\nDirectories:\n  " ++ dirsText ++
    "\nConfig: " ++ configPath ++
    (if configExisted then " (already existed)" else " (created)") ++
    "\n\nThis project is now active. All migration operations will use this project\x27s configuration.\n\nNext steps:\n1. Create migrations using \x27create_migration\x27" ++
    (if isStructuredMode then " (specify category)" else "") ++
    "\n2. Apply migrations using \x27flyway_migrate\x27"

/-- Lines 845-875: the directory-creation block, switching on the mode.
Structured mode iterates the category entries; simple mode probes and creates
the single migrations directory (`path.isAbsolute` over a non-string or
missing `migrations_path` throws a `TypeError`). -/
def initCreateDirs (projectPath : String) (projectConfig : Json)
    (isStructuredMode : Bool) (fs0 : FS) : Except Err (List String) × FS :=
  if isStructuredMode then
    createCategoryDirs projectPath
      (jfields ((jget projectConfig "migration_categories").getD Json.null)) fs0
  else
    match jget projectConfig "migrations_path" with
    | some (.str mp) =>
      let migrationsPath := if isAbsolute mp then mp else pathJoin projectPath mp
      if migrationsPath ∈ fs0.dirs then
        (.ok [migrationsPath ++ " (already existed)"], fs0)
      else
        (.ok [migrationsPath ++ " (created)"],
          { fs0 with dirs := migrationsPath :: fs0.dirs })
    | _ => (.error .typeErrNonStringPath, fs0)

/-- Lines 882-887: the `locations` array of the Flyway config. -/
def initLocations (projectPath : String) (projectConfig : Json)
    (isStructuredMode : Bool) : Except Err (List String) :=
  if isStructuredMode then
    mapLocations projectPath
      (jfields ((jget projectConfig "migration_categories").getD Json.null))
  else
    match jget projectConfig "migrations_path" with
    | some (.str mp) =>
      .ok ["filesystem:" ++ (if isAbsolute mp then mp else pathJoin projectPath mp)]
    | _ => .error Err.typeErrNonStringPath

/-- Lines 845-900: the tail of the `initialize_project` handler shared by the
existing-config and new-config branches — create the directories named by the
resolved config, set the active-project slot, build the Flyway handle, and
render the result. -/
def initAfterConfig (st : ServerState) (projectPath : String)
    (projectConfig : Json) (configExisted isStructuredMode : Bool) (fs0 : FS) :
    Except Err String × ServerState :=
  match initCreateDirs projectPath projectConfig isStructuredMode fs0 with
  | (.error e, fs1) => (.error e, { st with fs := fs1 })
  | (.ok createdDirs, fs1) =>
    let st1 := { st with fs := fs1, activeProjectPath := some projectPath,
                         activeProjectConfig := some projectConfig }
    match initLocations projectPath projectConfig isStructuredMode with
    | .error e => (.error e, st1)
    | .ok locations =>
      let st2 := { st1 with
        activeFlyway := some ⟨jget projectConfig "database_url", locations⟩ }
      let mode := if isStructuredMode then "structured" else "simple"
      let dirsText := String.intercalate "\n  " createdDirs
      (.ok (initText projectPath mode dirsText
              (pathJoin projectPath ".flyway-mcp.json") configExisted isStructuredMode),
        st2)

/-- Lines 823-843: no existing (truthy) config — construct a new config in
structured or simple mode (`validatedArgs.migrations_path || './migrations'`
is a truthiness default), persist it, then continue. -/
def initNewConfig (st : ServerState) (now : DateTime) (v : InitArgs) :
    Except Err String × ServerState :=
  let projectPath := v.project_path
  let configPath := pathJoin projectPath ".flyway-mcp.json"
  match v.migration_categories with
  | some cats =>
    let projectConfig := Json.obj
      [("database_url", .str v.database_url),
       ("migration_categories", .obj (cats.map (fun kv => (kv.1, Json.str kv.2)))),
       ("created_at", .str (isoString now))]
    let fs1 := { st.fs with configs := setA st.fs.configs configPath projectConfig }
    initAfterConfig st projectPath projectConfig false true fs1
  | none =>
    let migrationsPathConfig :=
      match v.migrations_path with
      | some mp => if mp == "" then "./migrations" else mp
      | none => "./migrations"
    let projectConfig := Json.obj
      [("database_url", .str v.database_url),
       ("migrations_path", .str migrationsPathConfig),
       ("created_at", .str (isoString now))]
    let fs1 := { st.fs with configs := setA st.fs.configs configPath projectConfig }
    initAfterConfig st projectPath projectConfig false false fs1

/-- The `initialize_project` handler (lines 800-901): validate, check the
project directory exists, load any existing config (`if (existingConfig)` is
a truthiness test, so a file parsing to a falsy JSON value is treated as
absent), then create directories, activate, and report. -/
def initializeProject (st : ServerState) (args : Json) (now : DateTime) :
    Except Err String × ServerState :=
  match parseInit args with
  | .error e => (.error e, st)
  | .ok v =>
    let projectPath := v.project_path
    if projectPath ∈ st.fs.dirs then
      let configPath := pathJoin projectPath ".flyway-mcp.json"
      match lookupA st.fs.configs configPath with
      | some cfg =>
        if jsTruthy cfg then
          initAfterConfig st projectPath cfg true
            (match jget cfg "migration_categories" with
             | some mc => jsTruthy mc
             | none => false)
            st.fs
        else initNewConfig st now v
      | none => initNewConfig st now v
    else
      (.error (.thrown ("Project directory does not exist: " ++ projectPath)), st)

/-! ## `update_migration_path` handler (lines 903-939) -/

/-- The success text of `update_migration_path` (line 935), with the manual
move instructions. -/
def updateText (ap oldAbs newAbs : String) : String :=
  "Migration path updated successfully!\n\nProject: " ++ ap ++
    "\nOld path: " ++ oldAbs ++ "\nNew path: " ++ newAbs ++
    "\n\n⚠️  IMPORTANT: This tool only updated the config file.\nYou must manually move your migration files from the old location to the new location.\n\nSteps to complete the migration:\n1. Create the new directory: " ++
    ("mkdir -p " ++ (newAbs ++
    ("\n2. Move migration files: " ++ ("mv " ++ (oldAbs ++ ("/*.sql " ++ (newAbs ++
    ("/\n3. Verify files moved correctly\n4. Remove old directory if empty: " ++
    ("rmdir " ++ oldAbs)))))))))

/-- The `update_migration_path` handler (lines 903-939).  Note the order the
source fixes: the updated config (a spread of the active config with
`migrations_path` overwritten) is persisted and installed in memory *before*
`path.isAbsolute(oldMigrationsPath)` runs, so when the active config has no
string `migrations_path` (structured mode) the handler throws a `TypeError`
only after both writes. -/
def updateMigrationPath (st : ServerState) (args : Json) :
    Except Err String × ServerState :=
  match parseUpdatePath args with
  | none => (.error .invalidArgs, st)
  | some newMigrationsPath =>
    match requireInitializedProject st with
    | .error e => (.error e, st)
    | .ok (ap, cfg) =>
      let oldMigrationsPath := jget cfg "migrations_path"
      let updatedConfig := Json.obj (setA (jfields cfg) "migrations_path" (.str newMigrationsPath))
      let fs1 := { st.fs with
        configs := setA st.fs.configs (pathJoin ap ".flyway-mcp.json") updatedConfig }
      let st1 := { st with fs := fs1, activeProjectConfig := some updatedConfig }
      match oldMigrationsPath with
      | some (.str old) =>
        let oldAbs := if isAbsolute old then old else pathJoin ap old
        let newAbs := if isAbsolute newMigrationsPath then newMigrationsPath
                      else pathJoin ap newMigrationsPath
        (.ok (updateText ap oldAbs newAbs), st1)
      | _ => (.error .typeErrNonStringPath, st1)

/-! ## `create_migration` handler (lines 1043-1085) -/

/-- The success text of `create_migration` (line 1081). -/
def createText (filepath categoryInfo ts cd sql : String) : String :=
  "Migration file created successfully:\n\nPath: " ++
    (filepath ++ (categoryInfo ++ ("\nVersion: " ++ (ts ++ ("\nDescription: " ++
      (cd ++ ("\n\nContent:\n" ++ (sql ++
        "\n\nNext steps:\n1. Review the migration file\n2. Run \x27flyway_migrate\x27 to apply the migration"))))))))

/-- The `create_migration` handler (lines 1043-1085): validate (schema first,
before the initialization guard), require an active project, resolve the
target directory, `mkdir` it, and write the SQL verbatim under the Flyway
filename `V{timestamp}__{cleanDescription}.sql`. -/
def createMigration (st : ServerState) (args : Json) (gc : GlobalConfig)
    (now : DateTime) : Except Err String × ServerState :=
  match parseCreateMigration args with
  | none => (.error .invalidArgs, st)
  | some v =>
    match requireInitializedProject st with
    | .error e => (.error e, st)
    | .ok _ =>
      match getMigrationsDirectory st gc v.category with
      | .error e => (.error e, st)
      | .ok migrationDir =>
        let fs1 := mkdirFS st.fs migrationDir
        let ts := timestamp now
        let cd := cleanDescription v.description
        let filename := "V" ++ ts ++ "__" ++ cd ++ ".sql"
        let filepath := pathJoin migrationDir filename
        let fs2 := writeFileFS fs1 filepath v.sql
        let categoryInfo :=
          match v.category with
          | some c => if c == "" then "" else "\nCategory: " ++ c
          | none => ""
        (.ok (createText filepath categoryInfo ts cd v.sql), { st with fs := fs2 })

/-- Two adjacent sanitized characters are never both underscores. -/
def noAdj (a b : Char) : Prop := ¬(a = '_' ∧ b = '_')

/-- `pat` occurs as a contiguous substring of `s`. -/
def containsSub (s pat : String) : Prop :=
  ∃ u w, s.data = u ++ pat.data ++ w

/-- The invocation returned a result (rather than throwing). -/
def isOkResult {α : Type} : Except Err α → Bool
  | .ok _ => true
  | .error _ => false

/-! ## Concrete fixtures used by witnesses and counterexamples -/

/-- A fixed instant: 2024-01-02T03:04:05.006Z. -/
def exT : DateTime := ⟨2024, 1, 2, 3, 4, 5, 6⟩

/-- An empty global Flyway configuration. -/
def exGC : GlobalConfig := ⟨[]⟩

/-- Fresh server state: project directory `/p` exists, nothing initialized. -/
def exFreshState : ServerState := ⟨⟨["/p"], [], []⟩, none, none, none⟩

/-- A structured-mode project config document at `/p`. -/
def exStructCfgFields : List (String × Json) :=
  [("database_url", .str "postgresql://u"),
   ("migration_categories", .obj [("schema", .str "./m/s"), ("data", .str "./m/d")]),
   ("created_at", .str "2024-01-01T00:00:00.000Z")]

/-- The category map of `exStructCfgFields`. -/
def exStructCats : List (String × Json) :=
  [("schema", .str "./m/s"), ("data", .str "./m/d")]

/-- Server state with `/p` active in structured mode. -/
def exStructState : ServerState :=
  ⟨⟨["/p", "/p/m/s", "/p/m/d"], [], [("/p/.flyway-mcp.json", Json.obj exStructCfgFields)]⟩,
    some "/p", some (Json.obj exStructCfgFields), none⟩

/-- A simple-mode (single-directory) project config document at `/p`. -/
def exSimpleCfgFields : List (String × Json) :=
  [("database_url", .str "postgresql://u"),
   ("migrations_path", .str "./migrations"),
   ("created_at", .str "2024-01-01T00:00:00.000Z")]

/-- Server state with `/p` active in simple mode. -/
def exSimpleState : ServerState :=
  ⟨⟨["/p", "/p/migrations"], [], [("/p/.flyway-mcp.json", Json.obj exSimpleCfgFields)]⟩,
    some "/p", some (Json.obj exSimpleCfgFields), none⟩

/-- Uninitialized state whose project root `/p` already holds a (truthy)
config file. -/
def exExistingCfgState : ServerState :=
  ⟨⟨["/p"], [], [("/p/.flyway-mcp.json", Json.obj exSimpleCfgFields)]⟩, none, none, none⟩

/-- Uninitialized state whose project root `/p` holds a config file whose
content is the JSON document `null` (a perfectly valid JSON file). -/
def exNullCfgState : ServerState :=
  ⟨⟨["/p"], [], [("/p/.flyway-mcp.json", Json.null)]⟩, none, none, none⟩

/-- Plain `initialize_project` arguments for `/p`. -/
def exInitArgsJson : Json :=
  .obj [("project_path", .str "/p"), ("database_url", .str "postgresql://u")]

/-- `initialize_project` arguments for `/p` with a different database URL and
migrations path (used to show the arguments are ignored for an existing
config). -/
def exInitArgsJson2 : Json :=
  .obj [("project_path", .str "/p"), ("database_url", .str "postgresql://other"),
    ("migrations_path", .str "./elsewhere")]

/-- `initialize_project` arguments supplying both a non-empty
`migrations_path` and `migration_categories`. -/
def exBothArgs : Json :=
  .obj [("project_path", .str "/p"), ("database_url", .str "postgresql://u"),
    ("migrations_path", .str "./mig"),
    ("migration_categories", .obj [("schema", .str "./m/s")])]

/-- `initialize_project` arguments supplying both fields, but with
`migrations_path` the empty string (falsy in JS). -/
def exBothEmptyArgs : Json :=
  .obj [("project_path", .str "/p"), ("database_url", .str "postgresql://u"),
    ("migrations_path", .str ""),
    ("migration_categories", .obj [("schema", .str "./m/s")])]

/-- The corrupted config document that `update_migration_path` persists when
invoked on the structured-mode project `exStructState`: both
`migration_categories` and `migrations_path` are present. -/
def exBothFieldsCfg : Json :=
  Json.obj [("database_url", .str "postgresql://u"),
    ("migration_categories", .obj [("schema", .str "./m/s"), ("data", .str "./m/d")]),
    ("created_at", .str "2024-01-01T00:00:00.000Z"),
    ("migrations_path", .str "./db/migrations")]

/-! # Theorems -/

/-! ## Sanitizer lemmas -/

theorem collapseAux_mem :
    ∀ (l : List Char) (b : Bool) (c : Char),
      c ∈ collapseAux b l → isAlnumLower c = true ∨ c = '_' := by
  intro l
  induction l with
  | nil => intro b c h; simp [collapseAux] at h
  | cons a l ih =>
    intro b c h
    by_cases ha : isAlnumLower a
    · rw [collapseAux, if_pos ha] at h
      rcases List.mem_cons.mp h with h | h
      · exact Or.inl (h ▸ ha)
      · exact ih false c h
    · rw [collapseAux, if_neg ha] at h
      cases b with
      | true => simp only [if_true] at h; exact ih true c h
      | false =>
        simp only [Bool.false_eq_true, if_false] at h
        rcases List.mem_cons.mp h with h | h
        · exact Or.inr h
        · exact ih true c h

theorem collapseAux_true_head :
    ∀ (l : List Char) (c : Char),
      (collapseAux true l).head? = some c → isAlnumLower c = true := by
  intro l
  induction l with
  | nil => intro c h; simp [collapseAux] at h
  | cons a l ih =>
    intro c h
    by_cases ha : isAlnumLower a
    · rw [collapseAux, if_pos ha] at h
      simp only [List.head?_cons, Option.some.injEq] at h
      exact h ▸ ha
    · rw [collapseAux, if_neg ha, if_pos rfl] at h
      exact ih c h

theorem collapseAux_chain :
    ∀ (l : List Char) (b : Bool), List.Chain' noAdj (collapseAux b l) := by
  intro l
  induction l with
  | nil => intro b; simp [collapseAux]
  | cons a l ih =>
    intro b
    by_cases ha : isAlnumLower a
    · rw [collapseAux, if_pos ha, List.chain'_cons']
      refine ⟨fun y _ hcon => ?_, ih false⟩
      rw [hcon.1] at ha
      exact absurd ha (by decide)
    · rw [collapseAux, if_neg ha]
      cases b with
      | true => simp only [if_true]; exact ih true
      | false =>
        simp only [Bool.false_eq_true, if_false]
        rw [List.chain'_cons']
        refine ⟨fun y hy hcon => ?_, ih true⟩
        have hhead : (collapseAux true l).head? = some y := hy
        have := collapseAux_true_head l y hhead
        rw [hcon.2] at this
        exact absurd this (by decide)

theorem dropWhile_head_not (p : Char → Bool) :
    ∀ (l : List Char) (c : Char), (l.dropWhile p).head? = some c → p c = false := by
  intro l
  induction l with
  | nil => intro c h; simp [List.dropWhile] at h
  | cons a l ih =>
    intro c h
    by_cases ha : p a
    · rw [List.dropWhile_cons, if_pos ha] at h
      exact ih c h
    · rw [List.dropWhile_cons, if_neg ha] at h
      simp only [List.head?_cons, Option.some.injEq] at h
      rw [← h]
      exact Bool.of_not_eq_true ha

theorem dropWhile_suffix_exists (p : Char → Bool) :
    ∀ l : List Char, ∃ s, s ++ l.dropWhile p = l := by
  intro l
  induction l with
  | nil => exact ⟨[], rfl⟩
  | cons a l ih =>
    by_cases ha : p a
    · obtain ⟨s, hs⟩ := ih
      exact ⟨a :: s, by rw [List.dropWhile_cons, if_pos ha, List.cons_append, hs]⟩
    · exact ⟨[], by rw [List.dropWhile_cons, if_neg ha, List.nil_append]⟩

theorem chain'_dropWhile (p : Char → Bool) :
    ∀ l : List Char, List.Chain' noAdj l → List.Chain' noAdj (l.dropWhile p) := by
  intro l
  induction l with
  | nil => intro h; exact h
  | cons a l ih =>
    intro h
    by_cases ha : p a
    · rw [List.dropWhile_cons, if_pos ha]
      exact ih h.tail
    · rw [List.dropWhile_cons, if_neg ha]
      exact h

theorem noAdj_flip : ∀ a b : Char, noAdj a b → flip noAdj a b := by
  intro a b h hcon
  exact h ⟨hcon.2, hcon.1⟩

theorem noAdj_unflip : ∀ a b : Char, flip noAdj a b → noAdj a b := by
  intro a b h hcon
  exact h ⟨hcon.2, hcon.1⟩

/-- **C5.** For every description string `d`, the sanitized description
(`cleanDescription d`, mirroring lines 1062-1066) contains only characters in
`[a-z0-9_]`, has no leading or trailing underscore, and contains no run of two
or more consecutive underscores (no two adjacent characters are both
underscores). -/
theorem cleanDescription_shape (d : String) :
    (∀ c ∈ (cleanDescription d).data, isAlnumLower c = true ∨ c = '_') ∧
    (∀ c, (cleanDescription d).data.head? = some c → c ≠ '_') ∧
    (∀ c, (cleanDescription d).data.getLast? = some c → c ≠ '_') ∧
    List.Chain' noAdj (cleanDescription d).data := by
  have hdata : (cleanDescription d).data
      = stripUnderscores (collapseAux false (d.data.map Char.toLower)) := rfl
  set cl := collapseAux false (d.data.map Char.toLower) with hcl
  set q : Char → Bool := (· == '_') with hq
  set as := cl.dropWhile q with has
  have hfinal : (cleanDescription d).data = (as.reverse.dropWhile q).reverse := by
    rw [hdata]; rfl
  -- final is a prefix of as
  obtain ⟨s, hs⟩ := dropWhile_suffix_exists q as.reverse
  have hpref : (as.reverse.dropWhile q).reverse ++ s.reverse = as := by
    have := congrArg List.reverse hs
    rw [List.reverse_append, List.reverse_reverse] at this
    exact this
  refine ⟨?_, ?_, ?_, ?_⟩
  · intro c hc
    rw [hfinal] at hc
    rw [List.mem_reverse] at hc
    have hc2 : c ∈ as.reverse := by
      rw [← hs]; exact List.mem_append_right _ hc
    rw [List.mem_reverse] at hc2
    have hc3 : c ∈ cl := by
      obtain ⟨s2, hs2⟩ := dropWhile_suffix_exists q cl
      rw [← hs2]
      exact List.mem_append_right _ (has ▸ hc2)
    exact collapseAux_mem _ false c hc3
  · intro c hc
    rw [hfinal] at hc
    -- head of final is head of as
    have hAs : as.head? = some c := by
      rcases hF : (as.reverse.dropWhile q).reverse with _ | ⟨f, fs⟩
      · rw [hF] at hc; simp at hc
      · rw [hF] at hc
        simp only [List.head?_cons, Option.some.injEq] at hc
        rw [← hpref, hF, hc, List.cons_append, List.head?_cons]
    have := dropWhile_head_not q cl c (has ▸ hAs)
    intro hcon
    rw [hcon] at this
    simp [hq] at this
  · intro c hc
    rw [hfinal, List.getLast?_reverse] at hc
    have := dropWhile_head_not q as.reverse c hc
    intro hcon
    rw [hcon] at this
    simp [hq] at this
  · rw [hfinal]
    have h1 : List.Chain' noAdj cl := collapseAux_chain _ false
    have h2 : List.Chain' noAdj as := chain'_dropWhile q cl h1
    have h3 : List.Chain' noAdj as.reverse :=
      List.chain'_reverse.mpr (h2.imp noAdj_flip)
    have h4 : List.Chain' noAdj (as.reverse.dropWhile q) := chain'_dropWhile q _ h3
    have h5 : List.Chain' (flip noAdj) (as.reverse.dropWhile q) := h4.imp noAdj_flip
    exact List.chain'_reverse.mpr h5

/-- Witness for C5 at the spec's own example: `"Create Users Table!!!"`
sanitizes to `create_users_table`; its first character `c` is in the allowed
class. -/
theorem cleanDescription_shape_witness :
    isAlnumLower 'c' = true ∨ 'c' = '_' :=
  (cleanDescription_shape "Create Users Table!!!").1 'c' (by decide)

/-! ## Timestamp lemmas -/

theorem dchar_facts (n : Nat) :
    (dchar n).isDigit = true ∧ keepChar (dchar n) = true ∧
      (dchar n).toNat = 48 + n % 10 ∧ ¬(dchar n = '.') ∧ ¬(dchar n = 'Z') := by
  have h10 : n % 10 < 10 := Nat.mod_lt _ (by norm_num)
  have hfin : ∀ i : Fin 10,
      (Nat.digitChar i.val).isDigit = true ∧ keepChar (Nat.digitChar i.val) = true ∧
        (Nat.digitChar i.val).toNat = 48 + i.val ∧
        ¬(Nat.digitChar i.val = '.') ∧ ¬(Nat.digitChar i.val = 'Z') := by decide
  simpa [dchar] using hfin ⟨n % 10, h10⟩

theorem keep_dchar (n : Nat) : keepChar (dchar n) = true := (dchar_facts n).2.1

theorem dchar_digit (n : Nat) : (dchar n).isDigit = true := (dchar_facts n).1

theorem dchar_toNat (n : Nat) : (dchar n).toNat = 48 + n % 10 := (dchar_facts n).2.2.1

theorem length_pad2 (n : Nat) : (pad2 n).length = 2 := rfl

theorem length_pad4 (n : Nat) : (pad4 n).length = 4 := rfl

theorem filter_isoChars (t : DateTime) :
    (isoChars t).filter keepChar =
      (pad4 t.year ++ (pad2 t.month ++ (pad2 t.day ++ (pad2 t.hour ++
        (pad2 t.minute ++ pad2 t.second))))) ++
        '.' :: (pad3 t.ms ++ ['Z']) := by
  simp [isoChars, pad4, pad3, pad2, keep_dchar,
    (by decide : keepChar '-' = false), (by decide : keepChar ':' = false),
    (by decide : keepChar 'T' = false), (by decide : keepChar '.' = true),
    (by decide : keepChar 'Z' = true)]

theorem dropTrailingFracZ_shape (P : List Char) (a b c : Char)
    (ha : a.isDigit = true) (hb : b.isDigit = true) (hc : c.isDigit = true) :
    dropTrailingFracZ (P ++ '.' :: ([a, b, c] ++ ['Z'])) = P := by
  have hrev : (P ++ '.' :: ([a, b, c] ++ ['Z'])).reverse
      = 'Z' :: (c :: b :: a :: '.' :: P.reverse) := by
    simp
  unfold dropTrailingFracZ
  rw [hrev]
  simp only [List.takeWhile_cons, hc, hb, ha,
    (by decide : ('.' : Char).isDigit = false)]
  simp [List.drop]

theorem timestamp_data (t : DateTime) :
    (timestamp t).data =
      pad4 t.year ++ (pad2 t.month ++ (pad2 t.day ++ (pad2 t.hour ++
        (pad2 t.minute ++ pad2 t.second)))) := by
  have hdata : (timestamp t).data
      = List.take 14 (dropTrailingFracZ ((isoChars t).filter keepChar)) := rfl
  rw [hdata, filter_isoChars]
  have hdrop := dropTrailingFracZ_shape
    (pad4 t.year ++ (pad2 t.month ++ (pad2 t.day ++ (pad2 t.hour ++
      (pad2 t.minute ++ pad2 t.second)))))
    (dchar (t.ms / 100)) (dchar (t.ms / 10)) (dchar t.ms)
    (dchar_digit _) (dchar_digit _) (dchar_digit _)
  have hpad3 : pad3 t.ms = [dchar (t.ms / 100), dchar (t.ms / 10), dchar t.ms] := rfl
  rw [hpad3]
  rw [hdrop]
  have hlen : (pad4 t.year ++ (pad2 t.month ++ (pad2 t.day ++ (pad2 t.hour ++
      (pad2 t.minute ++ pad2 t.second))))).length = 14 := by
    simp [pad4, pad2]
  rw [show (14 : Nat) = (pad4 t.year ++ (pad2 t.month ++ (pad2 t.day ++ (pad2 t.hour ++
      (pad2 t.minute ++ pad2 t.second))))).length from hlen.symm]
  exact List.take_length _

theorem digitsToNat_foldl_init (l : List Char) :
    ∀ a : Nat, l.foldl (fun n c => n * 10 + (c.toNat - 48)) a
      = a * 10 ^ l.length + l.foldl (fun n c => n * 10 + (c.toNat - 48)) 0 := by
  induction l with
  | nil => intro a; simp
  | cons c l ih =>
    intro a
    simp only [List.foldl_cons, List.length_cons]
    rw [ih (a * 10 + (c.toNat - 48)), ih (0 * 10 + (c.toNat - 48))]
    ring

theorem digitsToNat_append (l1 l2 : List Char) :
    digitsToNat (l1 ++ l2) = digitsToNat l1 * 10 ^ l2.length + digitsToNat l2 := by
  unfold digitsToNat
  rw [List.foldl_append]
  exact digitsToNat_foldl_init l2 _

theorem digitsToNat_pad2 (n : Nat) :
    digitsToNat (pad2 n) = n / 10 % 10 * 10 + n % 10 := by
  have h1 := dchar_toNat (n / 10)
  have h2 := dchar_toNat n
  simp [digitsToNat, pad2, h1, h2]

theorem digitsToNat_pad4 (n : Nat) :
    digitsToNat (pad4 n)
      = n / 1000 % 10 * 1000 + n / 100 % 10 * 100 + n / 10 % 10 * 10 + n % 10 := by
  have h1 := dchar_toNat (n / 1000)
  have h2 := dchar_toNat (n / 100)
  have h3 := dchar_toNat (n / 10)
  have h4 := dchar_toNat n
  simp [digitsToNat, pad4, h1, h2, h3, h4]
  ring

theorem tsNat_eq (t : DateTime) (hv : validDT t) :
    tsNat t = ((((t.year * 100 + t.month) * 100 + t.day) * 100 + t.hour) * 100
      + t.minute) * 100 + t.second := by
  unfold tsNat
  rw [timestamp_data]
  rw [digitsToNat_append, digitsToNat_append, digitsToNat_append,
    digitsToNat_append, digitsToNat_append]
  simp only [digitsToNat_pad2, digitsToNat_pad4, List.length_append,
    length_pad2, length_pad4]
  obtain ⟨hy, hm1, hm2, hd1, hd2, hh, hmi, hs, hms⟩ := hv
  omega

/-- **C6.** The timestamp generator (the `toISOString` pipeline of line 1057)
always produces a string of exactly 14 ASCII digits, and it is monotone: for
any two generation instants with `t1` chronologically before `t2` at seconds
resolution, the timestamps compare `timestamp t1 ≤ timestamp t2` as unsigned
decimal integers.  Instants are the dates `toISOString` renders in plain
(non-expanded) ISO form, i.e. calendar-valid fields with a four-digit year. -/
theorem timestamp_digits_monotone :
    (∀ t : DateTime, validDT t →
      (timestamp t).length = 14 ∧ ∀ c ∈ (timestamp t).data, c.isDigit = true) ∧
    (∀ t1 t2 : DateTime, validDT t1 → validDT t2 → dtLT t1 t2 →
      tsNat t1 ≤ tsNat t2) := by
  constructor
  · intro t _
    constructor
    · show (timestamp t).data.length = 14
      rw [timestamp_data]
      simp [pad4, pad2]
    · intro c hc
      rw [timestamp_data] at hc
      have hp2 : ∀ n : Nat, ∀ x ∈ pad2 n, x.isDigit = true := by
        intro n x hx
        simp only [pad2, List.mem_cons, List.not_mem_nil, or_false] at hx
        rcases hx with hx | hx <;> (subst hx; exact dchar_digit _)
      have hp4 : ∀ x ∈ pad4 t.year, x.isDigit = true := by
        intro x hx
        simp only [pad4, List.mem_cons, List.not_mem_nil, or_false] at hx
        rcases hx with hx | hx | hx | hx <;> (subst hx; exact dchar_digit _)
      rcases List.mem_append.mp hc with h | h
      · exact hp4 c h
      rcases List.mem_append.mp h with h | h
      · exact hp2 _ c h
      rcases List.mem_append.mp h with h | h
      · exact hp2 _ c h
      rcases List.mem_append.mp h with h | h
      · exact hp2 _ c h
      rcases List.mem_append.mp h with h | h
      · exact hp2 _ c h
      · exact hp2 _ c h
  · intro t1 t2 h1 h2 hlt
    rw [tsNat_eq t1 h1, tsNat_eq t2 h2]
    obtain ⟨hy, hm1, hm2, hd1, hd2, hh, hmi, hs, hms⟩ := h1
    obtain ⟨hy2, hm12, hm22, hd12, hd22, hh2, hmi2, hs2, hms2⟩ := h2
    unfold dtLT at hlt
    omega

/-- Witness for C6 at two concrete instants one second apart. -/
theorem timestamp_digits_monotone_witness :
    ((timestamp ⟨2024, 1, 2, 3, 4, 5, 6⟩).length = 14 ∧
      ∀ c ∈ (timestamp ⟨2024, 1, 2, 3, 4, 5, 6⟩).data, c.isDigit = true) ∧
    tsNat ⟨2024, 1, 2, 3, 4, 5, 6⟩ ≤ tsNat ⟨2024, 1, 2, 3, 4, 6, 0⟩ :=
  ⟨timestamp_digits_monotone.1 ⟨2024, 1, 2, 3, 4, 5, 6⟩ (by decide),
   timestamp_digits_monotone.2 ⟨2024, 1, 2, 3, 4, 5, 6⟩ ⟨2024, 1, 2, 3, 4, 6, 0⟩
     (by decide) (by decide) (by decide)⟩

/-! ## Association-list and string helper lemmas -/

theorem lookupA_setA_self {α : Type} (l : List (String × α)) (k : String) (v : α) :
    lookupA (setA l k v) k = some v := by
  induction l with
  | nil => simp [setA, lookupA]
  | cons p rest ih =>
    obtain ⟨k0, v0⟩ := p
    simp only [setA]
    by_cases h : k0 = k
    · rw [if_pos h]
      simp only [lookupA]
      rw [if_pos h]
    · rw [if_neg h]
      simp only [lookupA]
      rw [if_neg h]
      exact ih

theorem lookupA_setA_ne {α : Type} (l : List (String × α)) (k k2 : String) (v : α)
    (hne : k2 ≠ k) : lookupA (setA l k v) k2 = lookupA l k2 := by
  induction l with
  | nil =>
    simp only [setA, lookupA]
    rw [if_neg (fun h => hne h.symm)]
  | cons p rest ih =>
    obtain ⟨k0, v0⟩ := p
    simp only [setA]
    by_cases h : k0 = k
    · rw [if_pos h]
      simp only [lookupA]
      subst h
      rw [if_neg (fun hc => hne hc.symm), if_neg (fun hc => hne hc.symm)]
    · rw [if_neg h]
      simp only [lookupA]
      by_cases h2 : k0 = k2
      · rw [if_pos h2, if_pos h2]
      · rw [if_neg h2, if_neg h2]
        exact ih

theorem str_data_append (s t : String) : (s ++ t).data = s.data ++ t.data := rfl

theorem head?_append_of_head? (l1 l2 : List Char) (c : Char)
    (h : l1.head? = some c) : (l1 ++ l2).head? = some c := by
  cases l1 with
  | nil => simp at h
  | cons a t => simpa using h

/-- The two structured-mode error messages are distinct for any category
names: one starts with `C`, the other with `I`. -/
theorem requiredMsg_ne_invalidMsg (k1 : List String) (c : String) (k2 : List String) :
    categoryRequiredMsg k1 ≠ invalidCategoryMsg c k2 := by
  intro h
  have h1 : (categoryRequiredMsg k1).data.head? = some 'C' := by
    unfold categoryRequiredMsg
    simp only [str_data_append]
    apply head?_append_of_head?
    decide
  have h2 : (invalidCategoryMsg c k2).data.head? = some 'I' := by
    unfold invalidCategoryMsg
    simp only [str_data_append]
    apply head?_append_of_head?
    apply head?_append_of_head?
    apply head?_append_of_head?
    decide
  rw [h, h2] at h1
  simp at h1

/-- Inversion of the initialization guard: success pins down the active
slot. -/
theorem requireInitializedProject_ok_inv (st : ServerState) (ap : String) (cfg : Json)
    (h : requireInitializedProject st = .ok (ap, cfg)) :
    st.activeProjectPath = some ap ∧ st.activeProjectConfig = some cfg ∧
      ap ≠ "" ∧ jsTruthy cfg = true := by
  unfold requireInitializedProject at h
  cases hap : st.activeProjectPath with
  | none => rw [hap] at h; simp at h
  | some p =>
    cases hcfg : st.activeProjectConfig with
    | none => rw [hap, hcfg] at h; simp at h
    | some cf =>
      rw [hap, hcfg] at h
      dsimp only at h
      by_cases hpe : (p == "") = true
      · rw [if_pos hpe] at h; simp at h
      · rw [if_neg hpe] at h
        by_cases ht : jsTruthy cf = true
        · rw [if_pos ht] at h
          simp only [Except.ok.injEq, Prod.mk.injEq] at h
          obtain ⟨h1, h2⟩ := h
          subst h1; subst h2
          exact ⟨rfl, rfl, by simpa using hpe, ht⟩
        · rw [if_neg ht] at h; simp at h

/-! ## Structured-mode category errors (`create_migration`) -/

/-- **C7, counterexample.**  `"toString"` is not a configured category of the
structured-mode project (its own-property lookup misses), yet
`create_migration` with `category: "toString"` does *not* fail with the
"Invalid category" error: `migration_categories["toString"]` reads the
inherited `Object.prototype.toString` function, which is truthy, so
`if (!categoryPath)` is skipped and `path.isAbsolute` throws a `TypeError`.
This refutes the claim's "category not present fails with 'invalid
category'" conjunct. -/
theorem createMigration_structured_proto_category :
    createMigration exStructState
        (.obj [("description", .str "Add X"), ("sql", .str "SELECT 1;"),
          ("category", .str "toString")])
        exGC exT
      = (.error .typeErrNonStringPath, exStructState) ∧
    lookupA exStructCats "toString" = none ∧
    Err.typeErrNonStringPath
      ≠ Err.thrown (invalidCategoryMsg "toString" ["schema", "data"]) :=
  ⟨rfl, rfl, fun h => Err.noConfusion h⟩

/-- **C7, amended.**  With the active project in structured mode,
`create_migration` with no `category` fails with the "category required"
error, and with a `category` that is neither present in
`migration_categories` nor the name of an inherited `Object.prototype`
member fails with the "invalid category" error; both messages enumerate
exactly the configured category names (`Object.keys`, in order), by
construction of `categoryRequiredMsg` and `invalidCategoryMsg`.  A
`category` that misses the configured map but names an `Object.prototype`
member (e.g. `"toString"`) instead crashes with a `TypeError` from
`path.isAbsolute` — see the counterexample. -/
theorem createMigration_structured_category_errors
    (st : ServerState) (gc : GlobalConfig) (now : DateTime) (args : Json)
    (v : CreateArgs) (ap : String) (cf cats : List (String × Json))
    (hparse : parseCreateMigration args = some v)
    (hap : st.activeProjectPath = some ap) (hapne : ap ≠ "")
    (hcfg : st.activeProjectConfig = some (Json.obj cf))
    (hcats : lookupA cf "migration_categories" = some (Json.obj cats)) :
    (v.category = none →
      createMigration st args gc now
        = (.error (.thrown (categoryRequiredMsg (cats.map Prod.fst))), st)) ∧
    (∀ c, v.category = some c → c ≠ "" → lookupA cats c = none →
      c ∉ objectProtoKeys →
      createMigration st args gc now
        = (.error (.thrown (invalidCategoryMsg c (cats.map Prod.fst))), st)) ∧
    (∀ c, v.category = some c → c ≠ "" → lookupA cats c = none →
      c ∈ objectProtoKeys →
      createMigration st args gc now = (.error .typeErrNonStringPath, st)) := by
  have hreq : requireInitializedProject st = .ok (ap, Json.obj cf) := by
    unfold requireInitializedProject
    rw [hap, hcfg]
    dsimp only
    rw [if_neg (by simpa using hapne)]
    rfl
  refine ⟨?_, ?_, ?_⟩
  · intro hcat
    have hdir : getMigrationsDirectory st gc v.category
        = .error (.thrown (categoryRequiredMsg (cats.map Prod.fst))) := by
      unfold getMigrationsDirectory
      rw [hcfg]
      dsimp only [jsTruthy]
      simp only [jget, jfields, hcats]
      rw [hcat]
      rfl
    simp only [createMigration, hparse, hreq, hdir]
  · intro c hcat hcne hclook hcp
    have hdir : getMigrationsDirectory st gc v.category
        = .error (.thrown (invalidCategoryMsg c (cats.map Prod.fst))) := by
      unfold getMigrationsDirectory
      rw [hcfg]
      dsimp only [jsTruthy]
      simp only [jget, jfields, hcats]
      rw [hcat]
      have htr : truthyOptStr (some c) = true := by simp [truthyOptStr, hcne]
      simp only [htr, if_true, Option.getD_some, jread, jfields, hclook]
      rw [if_neg hcp]
      rfl
    simp only [createMigration, hparse, hreq, hdir]
  · intro c hcat hcne hclook hcp
    have hdir : getMigrationsDirectory st gc v.category
        = .error .typeErrNonStringPath := by
      unfold getMigrationsDirectory
      rw [hcfg]
      dsimp only [jsTruthy]
      simp only [jget, jfields, hcats]
      rw [hcat]
      have htr : truthyOptStr (some c) = true := by simp [truthyOptStr, hcne]
      simp only [htr, if_true, Option.getD_some, jread, jfields, hclook]
      rw [if_pos hcp]
    simp only [createMigration, hparse, hreq, hdir]

/-- Witness for the amended C7 on a concrete structured-mode project with
categories `schema` and `data`: a missing category, the unknown category
`"nope"`, and the prototype-member category `"toString"` produce the three
outcomes, the first two listing `schema, data`. -/
theorem createMigration_structured_category_errors_witness :
    (createMigration exStructState
        (.obj [("description", .str "Add X"), ("sql", .str "SELECT 1;")])
        exGC exT
      = (.error (.thrown (categoryRequiredMsg ["schema", "data"])), exStructState)) ∧
    (createMigration exStructState
        (.obj [("description", .str "Add X"), ("sql", .str "SELECT 1;"),
          ("category", .str "nope")])
        exGC exT
      = (.error (.thrown (invalidCategoryMsg "nope" ["schema", "data"])), exStructState)) ∧
    (createMigration exStructState
        (.obj [("description", .str "Add X"), ("sql", .str "SELECT 1;"),
          ("category", .str "toString")])
        exGC exT
      = (.error .typeErrNonStringPath, exStructState)) :=
  ⟨(createMigration_structured_category_errors exStructState exGC exT
      (.obj [("description", .str "Add X"), ("sql", .str "SELECT 1;")])
      ⟨"Add X", "SELECT 1;", none⟩ "/p" exStructCfgFields exStructCats
      rfl rfl (by decide) rfl rfl).1 rfl,
   (createMigration_structured_category_errors exStructState exGC exT
      (.obj [("description", .str "Add X"), ("sql", .str "SELECT 1;"),
        ("category", .str "nope")])
      ⟨"Add X", "SELECT 1;", some "nope"⟩ "/p" exStructCfgFields exStructCats
      rfl rfl (by decide) rfl rfl).2.1 "nope" rfl (by decide) rfl (by decide),
   (createMigration_structured_category_errors exStructState exGC exT
      (.obj [("description", .str "Add X"), ("sql", .str "SELECT 1;"),
        ("category", .str "toString")])
      ⟨"Add X", "SELECT 1;", some "toString"⟩ "/p" exStructCfgFields exStructCats
      rfl rfl (by decide) rfl rfl).2.2 "toString" rfl (by decide) rfl (by decide)⟩

/-- **C10.** With the active project in structured mode, a `create_migration`
whose `category` argument is the empty string is treated as a missing
category — `if (!category)` uses JS truthiness and `""` is falsy — so the call
fails with the "Category is required in structured mode" error listing the
available categories, never with the "Invalid category" error (the two
messages are distinct for every argument). -/
theorem createMigration_structured_empty_category
    (st : ServerState) (gc : GlobalConfig) (now : DateTime) (args : Json)
    (v : CreateArgs) (ap : String) (cf cats : List (String × Json))
    (hparse : parseCreateMigration args = some v)
    (hap : st.activeProjectPath = some ap) (hapne : ap ≠ "")
    (hcfg : st.activeProjectConfig = some (Json.obj cf))
    (hcats : lookupA cf "migration_categories" = some (Json.obj cats))
    (hempty : v.category = some "") :
    createMigration st args gc now
      = (.error (.thrown (categoryRequiredMsg (cats.map Prod.fst))), st) ∧
    (∀ c keys, Err.thrown (categoryRequiredMsg (cats.map Prod.fst))
      ≠ Err.thrown (invalidCategoryMsg c keys)) := by
  have hreq : requireInitializedProject st = .ok (ap, Json.obj cf) := by
    unfold requireInitializedProject
    rw [hap, hcfg]
    dsimp only
    rw [if_neg (by simpa using hapne)]
    rfl
  constructor
  · have hdir : getMigrationsDirectory st gc v.category
        = .error (.thrown (categoryRequiredMsg (cats.map Prod.fst))) := by
      unfold getMigrationsDirectory
      rw [hcfg]
      dsimp only [jsTruthy]
      simp only [jget, jfields, hcats]
      rw [hempty]
      rfl
    simp only [createMigration, hparse, hreq, hdir]
  · intro c keys h
    exact requiredMsg_ne_invalidMsg (cats.map Prod.fst) c keys (by injection h)

/-- Witness for C10: the empty-string category on the concrete structured
project fails with the category-required error. -/
theorem createMigration_structured_empty_category_witness :
    createMigration exStructState
        (.obj [("description", .str "Add X"), ("sql", .str "SELECT 1;"),
          ("category", .str "")])
        exGC exT
      = (.error (.thrown (categoryRequiredMsg ["schema", "data"])), exStructState) :=
  (createMigration_structured_empty_category exStructState exGC exT
      (.obj [("description", .str "Add X"), ("sql", .str "SELECT 1;"),
        ("category", .str "")])
      ⟨"Add X", "SELECT 1;", some ""⟩ "/p" exStructCfgFields exStructCats
      rfl rfl (by decide) rfl rfl rfl).1

/-! ## Substring helper lemmas -/

theorem containsSub_self_left (p y : String) : containsSub (p ++ y) p :=
  ⟨[], y.data, by rw [str_data_append]; simp⟩

theorem containsSub_appL (a t p : String) (h : containsSub t p) :
    containsSub (a ++ t) p := by
  obtain ⟨u, w, hw⟩ := h
  exact ⟨a.data ++ u, w, by rw [str_data_append, hw]; simp [List.append_assoc]⟩

theorem mkdirFS_files (fs : FS) (d : String) : (mkdirFS fs d).files = fs.files := by
  unfold mkdirFS
  split <;> rfl

/-! ## `create_migration` writes the SQL verbatim (C8) -/

/-- **C8.** Every successful `create_migration` call with description `d` and
SQL `S` writes exactly one file: at the path obtained by joining the resolved
migrations directory with the filename
`V{14-digit timestamp}__{sanitized d}.sql`; its stored content is exactly
`S`, byte for byte (reading that path back yields `S`); and the reported
result text embeds that same path. -/
theorem createMigration_writes_verbatim
    (st : ServerState) (args : Json) (gc : GlobalConfig) (now : DateTime)
    (v : CreateArgs) (txt : String) (st2 : ServerState)
    (hparse : parseCreateMigration args = some v)
    (hrun : createMigration st args gc now = (.ok txt, st2)) :
    ∃ dir : String, getMigrationsDirectory st gc v.category = .ok dir ∧
      lookupA st2.fs.files
        (pathJoin dir ("V" ++ timestamp now ++ "__" ++ cleanDescription v.description ++ ".sql"))
        = some v.sql ∧
      st2.fs.files = setA st.fs.files
        (pathJoin dir ("V" ++ timestamp now ++ "__" ++ cleanDescription v.description ++ ".sql"))
        v.sql ∧
      containsSub txt
        (pathJoin dir ("V" ++ timestamp now ++ "__" ++ cleanDescription v.description ++ ".sql")) := by
  unfold createMigration at hrun
  rw [hparse] at hrun
  dsimp only at hrun
  cases hreq : requireInitializedProject st with
  | error e =>
    rw [hreq] at hrun
    dsimp only at hrun
    exact absurd (congrArg Prod.fst hrun) (by simp)
  | ok p =>
    rw [hreq] at hrun
    dsimp only at hrun
    cases hdir : getMigrationsDirectory st gc v.category with
    | error e =>
      rw [hdir] at hrun
      dsimp only at hrun
      exact absurd (congrArg Prod.fst hrun) (by simp)
    | ok migrationDir =>
      rw [hdir] at hrun
      dsimp only at hrun
      have h1 := congrArg Prod.fst hrun
      have h2 := congrArg Prod.snd hrun
      dsimp only at h1 h2
      injection h1 with htxt
      refine ⟨migrationDir, rfl, ?_, ?_, ?_⟩
      · rw [← h2]
        show lookupA (setA (mkdirFS st.fs migrationDir).files _ v.sql) _ = some v.sql
        rw [mkdirFS_files]
        exact lookupA_setA_self _ _ _
      · rw [← h2]
        show setA (mkdirFS st.fs migrationDir).files _ v.sql = _
        rw [mkdirFS_files]
      · rw [← htxt]
        unfold createText
        apply containsSub_appL
        exact containsSub_self_left _ _

/-- Witness for C8: a concrete successful run on the simple-mode project
writes `V20240102030405__add_x.sql` containing exactly `SELECT 1;`. -/
theorem createMigration_writes_verbatim_witness :
    ∃ dir : String, getMigrationsDirectory exSimpleState exGC none = .ok dir ∧
      lookupA
        (⟨⟨["/p", "/p/migrations"],
            [("/p/migrations/V20240102030405__add_x.sql", "SELECT 1;")],
            [("/p/.flyway-mcp.json", Json.obj exSimpleCfgFields)]⟩,
          some "/p", some (Json.obj exSimpleCfgFields),
          (none : Option FlywayInst)⟩ : ServerState).fs.files
        (pathJoin dir ("V" ++ timestamp exT ++ "__" ++ cleanDescription "Add X" ++ ".sql"))
        = some "SELECT 1;" ∧
      (⟨⟨["/p", "/p/migrations"],
          [("/p/migrations/V20240102030405__add_x.sql", "SELECT 1;")],
          [("/p/.flyway-mcp.json", Json.obj exSimpleCfgFields)]⟩,
        some "/p", some (Json.obj exSimpleCfgFields),
        (none : Option FlywayInst)⟩ : ServerState).fs.files
        = setA exSimpleState.fs.files
            (pathJoin dir ("V" ++ timestamp exT ++ "__" ++ cleanDescription "Add X" ++ ".sql"))
            "SELECT 1;" ∧
      containsSub
        (createText "/p/migrations/V20240102030405__add_x.sql" "" "20240102030405"
          "add_x" "SELECT 1;")
        (pathJoin dir ("V" ++ timestamp exT ++ "__" ++ cleanDescription "Add X" ++ ".sql")) :=
  createMigration_writes_verbatim exSimpleState
    (.obj [("description", .str "Add X"), ("sql", .str "SELECT 1;")]) exGC exT
    ⟨"Add X", "SELECT 1;", none⟩
    (createText "/p/migrations/V20240102030405__add_x.sql" "" "20240102030405"
      "add_x" "SELECT 1;")
    ⟨⟨["/p", "/p/migrations"],
        [("/p/migrations/V20240102030405__add_x.sql", "SELECT 1;")],
        [("/p/.flyway-mcp.json", Json.obj exSimpleCfgFields)]⟩,
      some "/p", some (Json.obj exSimpleCfgFields), none⟩
    rfl rfl

/-! ## `update_migration_path` effects (C9) -/

/-- **C9.** Every successful `update_migration_path(new_path)` call sets
`migrations_path` to `new_path` in both the persisted config document and the
in-memory active config, leaves every other config field (in particular
`database_url` and `created_at`) unchanged, moves or deletes no migration
file and no directory, keeps the same active project path, and returns result
text containing the manual `mkdir -p`/`mv`/`rmdir` instructions. -/
theorem updateMigrationPath_effects
    (st : ServerState) (args : Json) (txt : String) (st1 : ServerState)
    (hrun : updateMigrationPath st args = (.ok txt, st1)) :
    ∃ n ap cfg updatedConfig, parseUpdatePath args = some n ∧
      st.activeProjectPath = some ap ∧ st.activeProjectConfig = some cfg ∧
      updatedConfig = Json.obj (setA (jfields cfg) "migrations_path" (.str n)) ∧
      st1.activeProjectConfig = some updatedConfig ∧
      jget updatedConfig "migrations_path" = some (.str n) ∧
      lookupA st1.fs.configs (pathJoin ap ".flyway-mcp.json") = some updatedConfig ∧
      (∀ k, k ≠ "migrations_path" → jget updatedConfig k = jget cfg k) ∧
      st1.fs.files = st.fs.files ∧
      st1.fs.dirs = st.fs.dirs ∧
      st1.activeProjectPath = st.activeProjectPath ∧
      containsSub txt "mkdir -p " ∧ containsSub txt "mv " ∧ containsSub txt "rmdir " := by
  unfold updateMigrationPath at hrun
  cases hp : parseUpdatePath args with
  | none =>
    rw [hp] at hrun
    dsimp only at hrun
    exact absurd (congrArg Prod.fst hrun) (by simp)
  | some n =>
    rw [hp] at hrun
    dsimp only at hrun
    cases hreq : requireInitializedProject st with
    | error e =>
      rw [hreq] at hrun
      dsimp only at hrun
      exact absurd (congrArg Prod.fst hrun) (by simp)
    | ok p =>
      obtain ⟨ap, cfg⟩ := p
      rw [hreq] at hrun
      dsimp only at hrun
      obtain ⟨hap, hcfg, _, _⟩ := requireInitializedProject_ok_inv st ap cfg hreq
      cases ho : jget cfg "migrations_path" with
      | none =>
        rw [ho] at hrun
        dsimp only at hrun
        exact absurd (congrArg Prod.fst hrun) (by simp)
      | some j =>
        rw [ho] at hrun
        cases j with
        | str old =>
          dsimp only at hrun
          have h1 := congrArg Prod.fst hrun
          have h2 := congrArg Prod.snd hrun
          dsimp only at h1 h2
          injection h1 with htxt
          refine ⟨n, ap, cfg, Json.obj (setA (jfields cfg) "migrations_path" (.str n)),
            rfl, hap, hcfg, rfl, ?_, ?_, ?_, ?_, ?_, ?_, ?_, ?_, ?_, ?_⟩
          · rw [← h2]
          · exact lookupA_setA_self _ _ _
          · rw [← h2]
            show lookupA (setA st.fs.configs (pathJoin ap ".flyway-mcp.json") _) _ = _
            exact lookupA_setA_self _ _ _
          · intro k hk
            exact lookupA_setA_ne _ _ _ _ hk
          · rw [← h2]
          · rw [← h2]
          · rw [← h2]
          · rw [← htxt]
            unfold updateText
            repeat first
              | exact containsSub_self_left _ _
              | apply containsSub_appL
          · rw [← htxt]
            unfold updateText
            repeat first
              | exact containsSub_self_left _ _
              | apply containsSub_appL
          · rw [← htxt]
            unfold updateText
            repeat first
              | exact containsSub_self_left _ _
              | apply containsSub_appL
        | null =>
          dsimp only at hrun
          exact absurd (congrArg Prod.fst hrun) (by simp)
        | bool b =>
          dsimp only at hrun
          exact absurd (congrArg Prod.fst hrun) (by simp)
        | num m =>
          dsimp only at hrun
          exact absurd (congrArg Prod.fst hrun) (by simp)
        | arr xs =>
          dsimp only at hrun
          exact absurd (congrArg Prod.fst hrun) (by simp)
        | obj f =>
          dsimp only at hrun
          exact absurd (congrArg Prod.fst hrun) (by simp)

/-- Witness for C9: the concrete simple-mode run rewrites `migrations_path`
to `./db/migrations`, preserves the other fields, moves nothing, and the
result text carries the manual-move instructions. -/
theorem updateMigrationPath_effects_witness :
    ∃ n ap cfg updatedConfig,
      parseUpdatePath (.obj [("new_migrations_path", .str "./db/migrations")]) = some n ∧
      exSimpleState.activeProjectPath = some ap ∧
      exSimpleState.activeProjectConfig = some cfg ∧
      updatedConfig = Json.obj (setA (jfields cfg) "migrations_path" (.str n)) ∧
      (⟨⟨["/p", "/p/migrations"], [],
          [("/p/.flyway-mcp.json", Json.obj [("database_url", .str "postgresql://u"),
            ("migrations_path", .str "./db/migrations"),
            ("created_at", .str "2024-01-01T00:00:00.000Z")])]⟩,
        some "/p",
        some (Json.obj [("database_url", .str "postgresql://u"),
          ("migrations_path", .str "./db/migrations"),
          ("created_at", .str "2024-01-01T00:00:00.000Z")]),
        (none : Option FlywayInst)⟩ : ServerState).activeProjectConfig = some updatedConfig ∧
      jget updatedConfig "migrations_path" = some (.str n) ∧
      lookupA
        (⟨⟨["/p", "/p/migrations"], [],
            [("/p/.flyway-mcp.json", Json.obj [("database_url", .str "postgresql://u"),
              ("migrations_path", .str "./db/migrations"),
              ("created_at", .str "2024-01-01T00:00:00.000Z")])]⟩,
          some "/p",
          some (Json.obj [("database_url", .str "postgresql://u"),
            ("migrations_path", .str "./db/migrations"),
            ("created_at", .str "2024-01-01T00:00:00.000Z")]),
          (none : Option FlywayInst)⟩ : ServerState).fs.configs
        (pathJoin ap ".flyway-mcp.json") = some updatedConfig ∧
      (∀ k, k ≠ "migrations_path" → jget updatedConfig k = jget cfg k) ∧
      (⟨⟨["/p", "/p/migrations"], [],
          [("/p/.flyway-mcp.json", Json.obj [("database_url", .str "postgresql://u"),
            ("migrations_path", .str "./db/migrations"),
            ("created_at", .str "2024-01-01T00:00:00.000Z")])]⟩,
        some "/p",
        some (Json.obj [("database_url", .str "postgresql://u"),
          ("migrations_path", .str "./db/migrations"),
          ("created_at", .str "2024-01-01T00:00:00.000Z")]),
        (none : Option FlywayInst)⟩ : ServerState).fs.files = exSimpleState.fs.files ∧
      (⟨⟨["/p", "/p/migrations"], [],
          [("/p/.flyway-mcp.json", Json.obj [("database_url", .str "postgresql://u"),
            ("migrations_path", .str "./db/migrations"),
            ("created_at", .str "2024-01-01T00:00:00.000Z")])]⟩,
        some "/p",
        some (Json.obj [("database_url", .str "postgresql://u"),
          ("migrations_path", .str "./db/migrations"),
          ("created_at", .str "2024-01-01T00:00:00.000Z")]),
        (none : Option FlywayInst)⟩ : ServerState).fs.dirs = exSimpleState.fs.dirs ∧
      (⟨⟨["/p", "/p/migrations"], [],
          [("/p/.flyway-mcp.json", Json.obj [("database_url", .str "postgresql://u"),
            ("migrations_path", .str "./db/migrations"),
            ("created_at", .str "2024-01-01T00:00:00.000Z")])]⟩,
        some "/p",
        some (Json.obj [("database_url", .str "postgresql://u"),
          ("migrations_path", .str "./db/migrations"),
          ("created_at", .str "2024-01-01T00:00:00.000Z")]),
        (none : Option FlywayInst)⟩ : ServerState).activeProjectPath
        = exSimpleState.activeProjectPath ∧
      containsSub (updateText "/p" "/p/migrations" "/p/db/migrations") "mkdir -p " ∧
      containsSub (updateText "/p" "/p/migrations" "/p/db/migrations") "mv " ∧
      containsSub (updateText "/p" "/p/migrations" "/p/db/migrations") "rmdir " :=
  updateMigrationPath_effects exSimpleState
    (.obj [("new_migrations_path", .str "./db/migrations")])
    (updateText "/p" "/p/migrations" "/p/db/migrations")
    ⟨⟨["/p", "/p/migrations"], [],
        [("/p/.flyway-mcp.json", Json.obj [("database_url", .str "postgresql://u"),
          ("migrations_path", .str "./db/migrations"),
          ("created_at", .str "2024-01-01T00:00:00.000Z")])]⟩,
      some "/p",
      some (Json.obj [("database_url", .str "postgresql://u"),
        ("migrations_path", .str "./db/migrations"),
        ("created_at", .str "2024-01-01T00:00:00.000Z")]),
      none⟩
    rfl

/-! ## Precondition guard of `create_migration` (C1) -/

/-- **C1, counterexample.**  With no project initialized, a `create_migration`
call with an invalid argument shape (here the empty object, missing both
required fields) fails with the wrapped `ZodError` ("Invalid arguments: …"),
*not* with the precondition error naming `initialize_project`: the schema
parse at line 1044 runs before `requireInitializedProject()` at line 1047.
This refutes the claim for invalid-shape argument combinations. -/
theorem createMigration_uninitialized_invalid_shape :
    createMigration exFreshState (Json.obj []) exGC exT
      = (.error .invalidArgs, exFreshState) ∧
    Err.invalidArgs ≠ Err.thrown requireInitMsg :=
  ⟨rfl, by simp⟩

/-- **C1, amended.**  For every *schema-valid* argument combination (with or
without `category`), a `create_migration` call made when no project has been
initialized fails with the precondition error, whose message names
`initialize_project` as the required prior operation; schema-invalid
combinations fail with the argument-validation error instead (see the
counterexample). -/
theorem createMigration_uninitialized_precondition
    (st : ServerState) (args : Json) (gc : GlobalConfig) (now : DateTime)
    (v : CreateArgs)
    (hap : st.activeProjectPath = none) (hcfg : st.activeProjectConfig = none)
    (hparse : parseCreateMigration args = some v) :
    createMigration st args gc now = (.error (.thrown requireInitMsg), st) ∧
    containsSub requireInitMsg "initialize_project" := by
  have hreq : requireInitializedProject st = .error (.thrown requireInitMsg) := by
    unfold requireInitializedProject
    rw [hap, hcfg]
  constructor
  · simp only [createMigration, hparse, hreq]
  · have hsplit : requireInitMsg
        = "No project has been initialized. Please run "
          ++ ("initialize_project"
            ++ " first.\n\nExample: \"Initialize Flyway for the project at /path/to/your/project\"\n\nThis will create a .flyway-mcp.json config file and migrations directory in your project.") := rfl
    rw [hsplit]
    apply containsSub_appL
    exact containsSub_self_left _ _

/-- Witness for the amended C1: a valid call on the fresh state fails with
the precondition error. -/
theorem createMigration_uninitialized_precondition_witness :
    createMigration exFreshState
        (.obj [("description", .str "Add X"), ("sql", .str "SELECT 1;")]) exGC exT
      = (.error (.thrown requireInitMsg), exFreshState) ∧
    containsSub requireInitMsg "initialize_project" :=
  createMigration_uninitialized_precondition exFreshState
    (.obj [("description", .str "Add X"), ("sql", .str "SELECT 1;")]) exGC exT
    ⟨"Add X", "SELECT 1;", none⟩ rfl rfl rfl

/-! ## `initialize_project` with an existing config (C3) -/

theorem createCategoryDirs_frame (projectPath : String) :
    ∀ (entries : List (String × Json)) (fs : FS),
      (createCategoryDirs projectPath entries fs).2.configs = fs.configs ∧
      (createCategoryDirs projectPath entries fs).2.files = fs.files := by
  intro entries
  induction entries with
  | nil => intro fs; exact ⟨rfl, rfl⟩
  | cons e rest ih =>
    intro fs
    obtain ⟨category, rp⟩ := e
    cases rp with
    | str s =>
      dsimp only [createCategoryDirs]
      by_cases hmem : (if isAbsolute s then s else pathJoin projectPath s) ∈ fs.dirs
      · rw [if_pos hmem]
        rcases h : createCategoryDirs projectPath rest fs with ⟨res, fs2⟩
        have hih := ih fs
        rw [h] at hih
        cases res with
        | ok m => exact hih
        | error e => exact hih
      · rw [if_neg hmem]
        rcases h : createCategoryDirs projectPath rest
            { fs with dirs := (if isAbsolute s then s else pathJoin projectPath s) :: fs.dirs }
          with ⟨res, fs2⟩
        have hih := ih { fs with dirs := (if isAbsolute s then s else pathJoin projectPath s) :: fs.dirs }
        rw [h] at hih
        cases res with
        | ok m => exact hih
        | error e => exact hih
    | null => exact ⟨rfl, rfl⟩
    | bool b => exact ⟨rfl, rfl⟩
    | num n => exact ⟨rfl, rfl⟩
    | arr xs => exact ⟨rfl, rfl⟩
    | obj f => exact ⟨rfl, rfl⟩

theorem initCreateDirs_configs (proj : String) (cfg : Json) (ism : Bool) (fs0 : FS) :
    (initCreateDirs proj cfg ism fs0).2.configs = fs0.configs := by
  unfold initCreateDirs
  cases ism with
  | true =>
    rw [if_pos rfl]
    exact (createCategoryDirs_frame _ _ _).1
  | false =>
    rw [if_neg Bool.false_ne_true]
    cases hmp : jget cfg "migrations_path" with
    | none => rfl
    | some j =>
      cases j with
      | str mp =>
        dsimp only
        split
        · split
          · rfl
          · rfl
        · split
          · rfl
          · rfl
      | null => rfl
      | bool b => rfl
      | num n => rfl
      | arr xs => rfl
      | obj f => rfl

theorem initAfterConfig_configs (st : ServerState) (proj : String) (cfg : Json)
    (ce ism : Bool) (fs0 : FS) :
    (initAfterConfig st proj cfg ce ism fs0).2.fs.configs = fs0.configs := by
  unfold initAfterConfig
  rcases hD : initCreateDirs proj cfg ism fs0 with ⟨res, fs1⟩
  have hfs1 : fs1.configs = fs0.configs := by
    have := initCreateDirs_configs proj cfg ism fs0
    rw [hD] at this
    exact this
  cases res with
  | error e => exact hfs1
  | ok msgs =>
    dsimp only
    cases hL : initLocations proj cfg ism with
    | error e => exact hfs1
    | ok locs => exact hfs1

theorem initAfterConfig_ok_active (st : ServerState) (proj : String) (cfg : Json)
    (ce ism : Bool) (fs0 : FS) (txt : String)
    (h : (initAfterConfig st proj cfg ce ism fs0).1 = .ok txt) :
    (initAfterConfig st proj cfg ce ism fs0).2.activeProjectConfig = some cfg ∧
    (initAfterConfig st proj cfg ce ism fs0).2.activeProjectPath = some proj := by
  unfold initAfterConfig at h ⊢
  rcases hD : initCreateDirs proj cfg ism fs0 with ⟨res, fs1⟩
  cases res with
  | error e =>
    rw [hD] at h
    simp at h
  | ok msgs =>
    dsimp only at h ⊢
    cases hL : initLocations proj cfg ism with
    | error e => exact ⟨rfl, rfl⟩
    | ok locs => exact ⟨rfl, rfl⟩

/-- Reduction of `initialize_project` when a truthy config document already
exists at the project root: the handler takes the existing-config branch
verbatim, with `configExisted = true` and the mode read from the loaded
document. -/
theorem initializeProject_existing_red (st : ServerState) (args : Json)
    (now : DateTime) (v : InitArgs) (j : Json)
    (hparse : parseInit args = .ok v)
    (hdir : v.project_path ∈ st.fs.dirs)
    (hcfgfile : lookupA st.fs.configs (pathJoin v.project_path ".flyway-mcp.json") = some j)
    (htruthy : jsTruthy j = true) :
    initializeProject st args now
      = initAfterConfig st v.project_path j true
          (match jget j "migration_categories" with
           | some mc => jsTruthy mc
           | none => false) st.fs := by
  unfold initializeProject
  rw [hparse]
  dsimp only
  rw [if_pos hdir]
  rw [hcfgfile]
  dsimp only
  rw [htruthy]
  rw [if_pos rfl]

/-- **C3, amended.**  When an existing config file at the project root parses
to a *truthy* JSON value, `initialize_project` loads and uses it verbatim: the
on-disk config store is untouched (so `created_at` is unchanged), on success
the in-memory active config is exactly the loaded document, and the result is
independent of the call's `database_url` / `migrations_path` /
`migration_categories` arguments.  A file parsing to a falsy value (or
failing to parse) is treated as absent and overwritten — see the
counterexample. -/
theorem initializeProject_existing_truthy_config
    (st : ServerState) (args : Json) (now : DateTime) (v : InitArgs) (j : Json)
    (hparse : parseInit args = .ok v)
    (hdir : v.project_path ∈ st.fs.dirs)
    (hcfgfile : lookupA st.fs.configs (pathJoin v.project_path ".flyway-mcp.json") = some j)
    (htruthy : jsTruthy j = true) :
    (initializeProject st args now).2.fs.configs = st.fs.configs ∧
    (∀ txt, (initializeProject st args now).1 = .ok txt →
      (initializeProject st args now).2.activeProjectConfig = some j ∧
      (initializeProject st args now).2.activeProjectPath = some v.project_path) ∧
    (∀ args2 v2, parseInit args2 = .ok v2 → v2.project_path = v.project_path →
      initializeProject st args2 now = initializeProject st args now) := by
  have hred := initializeProject_existing_red st args now v j hparse hdir hcfgfile htruthy
  refine ⟨?_, ?_, ?_⟩
  · rw [hred]
    exact initAfterConfig_configs _ _ _ _ _ _
  · intro txt h
    rw [hred] at h ⊢
    exact initAfterConfig_ok_active _ _ _ _ _ _ txt h
  · intro args2 v2 hparse2 hpp
    have hred2 := initializeProject_existing_red st args2 now v2 j hparse2
      (by rw [hpp]; exact hdir) (by rw [hpp]; exact hcfgfile) htruthy
    rw [hred2, hred, hpp]

/-- Witness for the amended C3: re-initializing `/p` (which already has a
truthy config) leaves the config store untouched, installs the loaded config,
and a call with a different `database_url` and `migrations_path` produces the
identical result. -/
theorem initializeProject_existing_truthy_config_witness :
    (initializeProject exExistingCfgState exInitArgsJson exT).2.fs.configs
      = exExistingCfgState.fs.configs ∧
    (initializeProject exExistingCfgState exInitArgsJson exT).2.activeProjectConfig
      = some (Json.obj exSimpleCfgFields) ∧
    initializeProject exExistingCfgState exInitArgsJson2 exT
      = initializeProject exExistingCfgState exInitArgsJson exT := by
  obtain ⟨h1, h2, h3⟩ := initializeProject_existing_truthy_config
    exExistingCfgState exInitArgsJson exT
    ⟨"/p", "postgresql://u", none, none⟩ (Json.obj exSimpleCfgFields)
    rfl (by decide) rfl rfl
  exact ⟨h1, (h2 _ rfl).1,
    h3 exInitArgsJson2 ⟨"/p", "postgresql://other", some "./elsewhere", none⟩ rfl rfl⟩

/-- **C3, counterexample.**  An existing config file whose content is the
JSON document `null` is *not* used verbatim: `readProjectConfig`'s result is
falsy, so the handler constructs a fresh config (fresh `created_at`, the
call's `database_url`) and rewrites the file.  This refutes "holds for every
existing config file, regardless of its content". -/
theorem initializeProject_overwrites_falsy_config :
    lookupA exNullCfgState.fs.configs "/p/.flyway-mcp.json" = some Json.null ∧
    lookupA (initializeProject exNullCfgState exInitArgsJson exT).2.fs.configs
        "/p/.flyway-mcp.json"
      = some (Json.obj [("database_url", .str "postgresql://u"),
          ("migrations_path", .str "./migrations"),
          ("created_at", .str "2024-01-02T03:04:05.006Z")]) ∧
    Json.obj [("database_url", .str "postgresql://u"),
        ("migrations_path", .str "./migrations"),
        ("created_at", .str "2024-01-02T03:04:05.006Z")]
      ≠ Json.null :=
  ⟨rfl, rfl, fun h => Json.noConfusion h⟩

/-! ## Mutually-exclusive `initialize_project` arguments (C4) -/

/-- **C4, amended.**  An `initialize_project` call that passes the base
schema and supplies a *truthy* (non-empty) `migrations_path` together with
`migration_categories` fails with the "cannot specify both" validation error
before any I/O: the state — directories, config files, and the ActiveProject
slot — is returned unchanged.  Supplying both with `migrations_path = ""`
slips past the truthiness-based `refine` — see the counterexample. -/
theorem initializeProject_both_supplied_fails
    (st : ServerState) (args : Json) (now : DateTime) (v : InitArgs)
    (hbase : parseInitBase args = some v)
    (hmp : truthyOptStr v.migrations_path = true)
    (hmc : v.migration_categories.isSome = true) :
    initializeProject st args now = (.error .cannotSpecifyBoth, st) := by
  have hparse : parseInit args = .error .cannotSpecifyBoth := by
    unfold parseInit
    rw [hbase]
    dsimp only
    rw [hmp, hmc]
    rfl
  simp only [initializeProject, hparse]

/-- Witness for the amended C4 at concrete arguments supplying both modes. -/
theorem initializeProject_both_supplied_fails_witness :
    initializeProject exFreshState exBothArgs exT
      = (.error .cannotSpecifyBoth, exFreshState) :=
  initializeProject_both_supplied_fails exFreshState exBothArgs exT
    ⟨"/p", "postgresql://u", some "./mig", some [("schema", "./m/s")]⟩ rfl rfl rfl

/-- **C4, counterexample.**  Supplying both `migrations_path` (as the empty
string) and `migration_categories` is *not* rejected: the `refine` tests
`!!data.migrations_path`, `""` is falsy, so the call proceeds in structured
mode, performs I/O (creates the category directory) and writes a config
file.  This refutes the claim for that argument combination. -/
theorem initializeProject_both_empty_path_not_rejected :
    isOkResult (initializeProject exFreshState exBothEmptyArgs exT).1 = true ∧
    (initializeProject exFreshState exBothEmptyArgs exT).1 ≠ .error .cannotSpecifyBoth ∧
    lookupA (initializeProject exFreshState exBothEmptyArgs exT).2.fs.configs
        "/p/.flyway-mcp.json"
      = some (Json.obj [("database_url", .str "postgresql://u"),
          ("migration_categories", .obj [("schema", .str "./m/s")]),
          ("created_at", .str "2024-01-02T03:04:05.006Z")]) ∧
    (initializeProject exFreshState exBothEmptyArgs exT).2.fs.dirs
      ≠ exFreshState.fs.dirs := by
  refine ⟨rfl, ?_, rfl, ?_⟩
  · intro hcontra
    have h : isOkResult (initializeProject exFreshState exBothEmptyArgs exT).1 = true := rfl
    rw [hcontra] at h
    exact Bool.noConfusion h
  · intro hcontra
    have h : (initializeProject exFreshState exBothEmptyArgs exT).2.fs.dirs
        = ["/p/m/s", "/p"] := rfl
    rw [h] at hcontra
    exact absurd hcontra (by decide)

/-! ## The exactly-one-mode-field invariant (C2) -/

/-- **C2 (code bug).**  The claim — every persisted `ProjectConfig` contains
exactly one of `migrations_path` / `migration_categories`, preserved by every
operation — matches the spec and the schema's own `refine`, but the code
violates it: `update_migration_path` on a structured-mode project spreads the
active config and overwrites `migrations_path`, persists the result and
installs it in memory, and only then crashes in `path.isAbsolute(undefined)`.
The config file and the in-memory active config end up carrying *both*
fields. -/
theorem updateMigrationPath_structured_breaks_invariant :
    (updateMigrationPath exStructState
        (.obj [("new_migrations_path", .str "./db/migrations")])).1
      = .error .typeErrNonStringPath ∧
    lookupA (updateMigrationPath exStructState
        (.obj [("new_migrations_path", .str "./db/migrations")])).2.fs.configs
        "/p/.flyway-mcp.json"
      = some exBothFieldsCfg ∧
    (updateMigrationPath exStructState
        (.obj [("new_migrations_path", .str "./db/migrations")])).2.activeProjectConfig
      = some exBothFieldsCfg ∧
    jget exBothFieldsCfg "migrations_path" = some (.str "./db/migrations") ∧
    jget exBothFieldsCfg "migration_categories"
      = some (.obj [("schema", .str "./m/s"), ("data", .str "./m/d")]) :=
  ⟨rfl, rfl, rfl, rfl, rfl⟩

end FlywayMCP
